import Mathlib

/-!
Shallow embedding of the model version resolution and registry subsystem of
`src/api/router.py` (iris model serving API).

The persisted registry file `model_registry.json` is modelled by `RegFile`:
it is absent, present but malformed (unparseable JSON), or a parsed document
`RegDoc`.  Durable artifact storage is a presence predicate on version keys;
a loaded model handle is identified by the key it was stored under, and the
opaque numeric inference inside a model is a parameter
`infer : String → Features → ℤ` (model key and feature vector to class index),
mirroring `int(model.predict(features)[0])`.  The ambient environment variable
`MODEL_VERSION` is an `Option String`; Python truthiness of `os.getenv` makes
an empty-string value behave as unset, which the embedding keeps explicit.
`HTTPException(status, detail)` and an uncaught `json.JSONDecodeError` are the
two error outcomes.
-/

namespace IrisApi

/-- The `metrics` sub-dictionary of the registry document; the `accuracy`
key is optional. -/
structure Metrics where
  accuracy : Option ℚ
deriving DecidableEq, Repr

/-- A parsed `model_registry.json` document; every key is optional, as in a
JSON dictionary. -/
structure RegDoc where
  version : Option String
  active_model : Option String
  model_type : Option String
  metrics : Option Metrics
deriving DecidableEq, Repr

/-- The empty dictionary `{}`. -/
def RegDoc.empty : RegDoc := ⟨none, none, none, none⟩

/-- State of the persisted registry file: missing, present but not parseable
as JSON, or present and parsed. -/
inductive RegFile
  | absent
  | malformed
  | doc (d : RegDoc)
deriving DecidableEq, Repr

/-- Errors: an uncaught JSON parse error, or an `HTTPException` with status
code and detail string. -/
inductive Err
  | jsonError
  | http (status : ℕ) (detail : String)
deriving DecidableEq, Repr

/-- A feature vector: sepal length, sepal width, petal length, petal width. -/
def Features : Type := ℚ × ℚ × ℚ × ℚ

/-- The `SPECIES` lookup table `{0: "setosa", 1: "versicolor", 2: "virginica"}`. -/
def SPECIES : List (ℤ × String) :=
  [(0, "setosa"), (1, "versicolor"), (2, "virginica")]

/-- A prediction label: either a species name from the table, or the raw
class index passed through (`SPECIES.get(pred_idx, pred_idx)`). -/
inductive PredLabel
  | species (s : String)
  | idx (i : ℤ)
deriving DecidableEq, Repr

/-- `SPECIES.get(pred_idx, pred_idx)`: dictionary lookup with the index
itself as the default. -/
def speciesGet (i : ℤ) : PredLabel :=
  match SPECIES.lookup i with
  | some s => .species s
  | none => .idx i

/-- `load_registry`: open and parse `model_registry.json`; only
`FileNotFoundError` is caught (returning `{}`), so a present but malformed
file propagates the JSON parse error. -/
def load_registry : RegFile → Except Err RegDoc
  | .absent => .ok RegDoc.empty
  | .malformed => .error .jsonError
  | .doc d => .ok d

/-- The registry-reading tail of `get_active_model_version`: reopen the file,
return `registry.get("version", "v1")`, with `"v1"` on `FileNotFoundError`
and the parse error propagating on a malformed file. -/
def registry_version : RegFile → Except Err String
  | .absent => .ok "v1"
  | .malformed => .error .jsonError
  | .doc d => .ok (d.version.getD "v1")

/-- `get_active_model_version`: the environment variable wins when truthy
(set and nonempty), else the registry's `version` key, else `"v1"`. -/
def get_active_model_version (env : Option String) (file : RegFile) :
    Except Err String :=
  match env with
  | some v => if v = "" then registry_version file else .ok v
  | none => registry_version file

/-- `load_active_model`: resolve the version, try the artifact stored under
it, and on `FileNotFoundError` fall back to the `v1` artifact whenever the
resolved version is not `"v1"` and that artifact exists; otherwise raise
`HTTPException(404, "Model {version} not found")`.  Returns the loaded model
handle (identified by its storage key) with the effective version. -/
def load_active_model (env : Option String) (file : RegFile)
    (arts : String → Bool) : Except Err (String × String) :=
  match get_active_model_version env file with
  | .error e => .error e
  | .ok version =>
    if arts version then .ok (version, version)
    else if version ≠ "v1" ∧ arts "v1" then .ok ("v1", "v1")
    else .error (.http 404 ("Model " ++ version ++ " not found"))

/-- The JSON value placed in the `accuracy` field of a `/predict` response:
a number from the registry or the literal string `"unknown"`. -/
inductive JVal
  | num (q : ℚ)
  | str (s : String)
deriving DecidableEq, Repr

/-- `registry.get("metrics", {}).get("accuracy", "unknown")`. -/
def regAccuracy (d : RegDoc) : JVal :=
  match d.metrics with
  | none => .str "unknown"
  | some m =>
    match m.accuracy with
    | none => .str "unknown"
    | some q => .num q

/-- Response body of `GET /predict`. -/
structure PredictResp where
  model : String
  prediction : PredLabel
  accuracy : JVal
  model_type : String
  version : String
deriving DecidableEq, Repr

/-- `GET /predict`: load the active model, run inference, and annotate with
the registry's accuracy and model type (or `"unknown"`). -/
def predict (env : Option String) (file : RegFile) (arts : String → Bool)
    (infer : String → Features → ℤ) (x : Features) :
    Except Err PredictResp :=
  match load_active_model env file arts with
  | .error e => .error e
  | .ok (m, version) =>
    let pred_idx := infer m x
    match load_registry file with
    | .error e => .error e
    | .ok reg =>
      .ok { model := version
            prediction := speciesGet pred_idx
            accuracy := regAccuracy reg
            model_type := reg.model_type.getD "unknown"
            version := version ++ ".0.0" }

/-- Response body of `GET /predict/v1`. -/
structure PinnedV1Resp where
  model : String
  prediction : PredLabel
  accuracy : ℚ
  model_type : String
  version : String
deriving DecidableEq, Repr

/-- `GET /predict/v1`: requires the v1 artifact; accuracy is the registry's
metric when the registry's `version` is `"v1"`, else the hardcoded 0.35. -/
def predict_v1 (file : RegFile) (arts : String → Bool)
    (infer : String → Features → ℤ) (x : Features) :
    Except Err PinnedV1Resp :=
  if arts "v1" then
    let pred_idx := infer "v1" x
    match load_registry file with
    | .error e => .error e
    | .ok reg =>
      let accuracy : ℚ :=
        if reg.version = some "v1" then
          match reg.metrics with
          | none => 35 / 100
          | some m => m.accuracy.getD (35 / 100)
        else 35 / 100
      .ok { model := "v1"
            prediction := speciesGet pred_idx
            accuracy := accuracy
            model_type := "DummyClassifier"
            version := "1.0.0" }
  else .error (.http 404 "Model v1 not found")

/-- Response body of `GET /predict/v2` (has the extra `improvement` key). -/
structure PinnedV2Resp where
  model : String
  prediction : PredLabel
  accuracy : ℚ
  model_type : String
  version : String
  improvement : String
deriving DecidableEq, Repr

/-- `GET /predict/v2`: requires the v2 artifact; accuracy is the registry's
metric when the registry's `version` is `"v2"`, else the hardcoded 0.95. -/
def predict_v2 (file : RegFile) (arts : String → Bool)
    (infer : String → Features → ℤ) (x : Features) :
    Except Err PinnedV2Resp :=
  if arts "v2" then
    let pred_idx := infer "v2" x
    match load_registry file with
    | .error e => .error e
    | .ok reg =>
      let accuracy : ℚ :=
        if reg.version = some "v2" then
          match reg.metrics with
          | none => 95 / 100
          | some m => m.accuracy.getD (95 / 100)
        else 95 / 100
      .ok { model := "v2"
            prediction := speciesGet pred_idx
            accuracy := accuracy
            model_type := "RandomForestClassifier"
            version := "2.0.0"
            improvement := "Major accuracy boost via CI/CD" }
  else .error (.http 404 "Model v2 not found")

/-- Response body of `POST /switch-model`. -/
structure SwitchResp where
  status : String
  message : String
  active_model : String
deriving DecidableEq, Repr

/-- `POST /switch-model`: validate the target against the closed set
`{"v1","v2"}`, require its artifact, then mutate the loaded registry
dictionary key by key (the `version` key is overwritten *before* the
carry-over condition `target_version != registry.get("version")` is
evaluated, exactly as in the source) and write the file back.  Returns the
file state after the call together with the HTTP outcome. -/
def switch_model (target : String) (file : RegFile) (arts : String → Bool) :
    RegFile × Except Err SwitchResp :=
  if ¬ (target = "v1" ∨ target = "v2") then
    (file, .error (.http 400 "Invalid model version"))
  else if ¬ arts target then
    (file, .error (.http 404 ("Model " ++ target ++ " not found")))
  else
    match load_registry file with
    | .error e => (file, .error e)
    | .ok reg =>
      let reg1 : RegDoc :=
        { reg with
          version := some target
          active_model := some ("iris_" ++ target ++ ".pkl") }
      let reg2 : RegDoc :=
        if target = "v1" then
          let r := { reg1 with model_type := some "DummyClassifier" }
          if r.metrics.isNone ∨ some target ≠ r.version then
            { r with metrics := some ⟨some (35 / 100)⟩ }
          else r
        else
          let r := { reg1 with model_type := some "RandomForestClassifier" }
          if r.metrics.isNone ∨ some target ≠ r.version then
            { r with metrics := some ⟨some (95 / 100)⟩ }
          else r
      (.doc reg2,
        .ok { status := "success"
              message := "Switched to model " ++ target
              active_model := "iris_" ++ target ++ ".pkl" })

/-- The `version` field of the persisted registry file, when the file parses
to a document. -/
def versionField : RegFile → Option String
  | .doc d => d.version
  | _ => none

/-- The resolver as the specification words it: a present override is
returned verbatim; else a registry document's declared version; else the
hard default `"v1"`; never fails.  (Stated from the spec, for comparison
with `get_active_model_version`.) -/
def claimResolve (env : Option String) (file : RegFile) : String :=
  match env with
  | some v => v
  | none =>
    match file with
    | .doc d => d.version.getD "v1"
    | _ => "v1"

/-! ## C1: override with missing artifact -/

/-- C1 counterexample: with the override set to `"v9"`, no artifact stored
under `"v9"`, and a v1 artifact present, `load_active_model` does not fail
with `ArtifactNotFound("v9")` — it silently substitutes the v1 artifact,
returning it with effective version `"v1"`. -/
theorem C1_counterexample :
    load_active_model (some "v9") RegFile.absent (fun v => v == "v1")
      = Except.ok ("v1", "v1") := by rfl

/-- C1 (amended): for every nonempty override `O` with no artifact stored
under `O`, loading falls back to the v1 artifact (returned with effective
version `"v1"`) whenever `O ≠ "v1"` and a v1 artifact is present, and fails
with `ArtifactNotFound(O)` only otherwise — override provenance is not
tracked and does not disable the fallback. -/
theorem C1_override_fallback (O : String) (file : RegFile)
    (arts : String → Bool) (hO : O ≠ "") (hmiss : arts O = false) :
    load_active_model (some O) file arts =
      if O ≠ "v1" ∧ arts "v1" then Except.ok ("v1", "v1")
      else Except.error (Err.http 404 ("Model " ++ O ++ " not found")) := by
  have h1 : get_active_model_version (some O) file = Except.ok O := by
    show (if O = "" then registry_version file else Except.ok O) = Except.ok O
    rw [if_neg hO]
  unfold load_active_model
  rw [h1]
  simp [hmiss]

/-- C1 witness: the amended statement evaluated at override `"v9"`, absent
registry, and a store holding only the v1 artifact. -/
theorem C1_override_fallback_witness :
    (("v9" : String) ≠ "" ∧ (fun v => v == "v1") "v9" = false) ∧
    load_active_model (some "v9") RegFile.absent (fun v => v == "v1") =
      (if ("v9" : String) ≠ "v1" ∧ (fun v => v == "v1") "v1" then
        Except.ok ("v1", "v1")
       else Except.error (Err.http 404 ("Model " ++ "v9" ++ " not found"))) :=
  ⟨⟨by decide, by decide⟩,
    C1_override_fallback "v9" RegFile.absent (fun v => v == "v1")
      (by decide) (by decide)⟩

/-! ## C2: resolver priority chain -/

/-- C2 counterexample: with no override and a present-but-malformed registry
file, the resolver does not return the claimed chain value (the hard default
`"v1"`): it fails, propagating the JSON parse error. -/
theorem C2_counterexample :
    get_active_model_version none RegFile.malformed
      ≠ Except.ok (claimResolve none RegFile.malformed) := by
  intro h
  exact Except.noConfusion h

/-- C2 (amended): the resolver follows the claimed three-way priority chain
(override verbatim, else registry version, else `"v1"`) whenever the
override is not the empty string and, when no override is set, the registry
file is not present-but-malformed; an empty-string override is treated as
unset, and a malformed registry with no override makes the resolver fail
with a parse error instead of returning `"v1"`. -/
theorem C2_resolver_priority (env : Option String) (file : RegFile)
    (h1 : env ≠ some "") (h2 : env = none → file ≠ RegFile.malformed) :
    get_active_model_version env file = Except.ok (claimResolve env file) := by
  cases env with
  | some v =>
    have hv : v ≠ "" := by
      intro h
      exact h1 (by rw [h])
    show (if v = "" then registry_version file else Except.ok v)
      = Except.ok (claimResolve (some v) file)
    rw [if_neg hv]
    rfl
  | none =>
    have hf := h2 rfl
    cases file with
    | absent => rfl
    | malformed => exact absurd rfl hf
    | doc d => rfl

/-- C2 witness: the amended statement evaluated at override `"v2"` over a
malformed registry file — the override wins and is returned verbatim. -/
theorem C2_resolver_priority_witness :
    (some "v2" ≠ (some "" : Option String)) ∧
    get_active_model_version (some "v2") RegFile.malformed
      = Except.ok (claimResolve (some "v2") RegFile.malformed) :=
  ⟨by decide,
    C2_resolver_priority (some "v2") RegFile.malformed (by decide)
      (fun h => Option.noConfusion h)⟩

/-! ## C7: malformed registry document -/

/-- C7 counterexample: with the registry file present but malformed and no
override set, both the registry reader and the resolver propagate the JSON
parse error instead of treating the document as absent. -/
theorem C7_counterexample :
    load_registry RegFile.malformed = Except.error Err.jsonError ∧
    get_active_model_version none RegFile.malformed
      = Except.error Err.jsonError :=
  ⟨rfl, rfl⟩

/-- C7 (amended): only a missing registry file is treated as the empty
document (`load_registry` yields `{}` and the resolver yields `"v1"`); a
present-but-malformed file makes `load_registry` and — absent an effective
override — the resolver propagate the parse error, while a nonempty
override bypasses the registry read so resolution still succeeds. -/
theorem C7_malformed_not_absent :
    load_registry RegFile.malformed = Except.error Err.jsonError
  ∧ get_active_model_version none RegFile.malformed
      = Except.error Err.jsonError
  ∧ load_registry RegFile.absent = Except.ok RegDoc.empty
  ∧ registry_version RegFile.absent = Except.ok "v1"
  ∧ (∀ d : RegDoc, load_registry (RegFile.doc d) = Except.ok d)
  ∧ get_active_model_version (some "v2") RegFile.malformed
      = Except.ok "v2" :=
  ⟨rfl, rfl, rfl, rfl, fun _ => rfl, rfl⟩

/-! ## Helper lemmas about `switch_model` -/

/-- A valid switch over a malformed registry file propagates the parse error
and leaves the file unchanged. -/
lemma switch_model_malformed (target : String) (arts : String → Bool)
    (hv : target = "v1" ∨ target = "v2") (ha : arts target = true) :
    (switch_model target RegFile.malformed arts).1 = RegFile.malformed := by
  unfold switch_model
  rw [if_neg (not_not_intro hv), if_neg (by simp [ha])]
  rfl

/-- A valid switch over a parseable registry state writes a document whose
`version`, `active_model` and `model_type` are determined by the target, and
whose `metrics` are the prior document's metrics when any were recorded,
else the family default placeholder. -/
lemma switch_model_ok (target : String) (file : RegFile) (p : RegDoc)
    (arts : String → Bool) (hv : target = "v1" ∨ target = "v2")
    (ha : arts target = true) (hp : load_registry file = Except.ok p) :
    (switch_model target file arts).1 = RegFile.doc
      ⟨some target, some ("iris_" ++ target ++ ".pkl"),
       some (if target = "v1" then "DummyClassifier"
             else "RandomForestClassifier"),
       some (p.metrics.getD ⟨some (if target = "v1" then 35 / 100
                                   else 95 / 100)⟩)⟩ := by
  unfold switch_model
  rw [if_neg (not_not_intro hv), if_neg (by simp [ha]), hp]
  obtain ⟨pv, pa, pt, pm⟩ := p
  rcases hv with h | h <;> subst h <;> cases pm <;> rfl

/-! ## C3: registry-sourced fallback to v1 -/

/-- C3: when the version `V` resolved with no effective override (registry
or default provenance) is not `"v1"` and its artifact is missing, loading
returns the v1 artifact with effective version `"v1"` when that artifact
exists, and otherwise fails with `ArtifactNotFound(V)` naming the
originally requested version. -/
theorem C3_registry_fallback (env : Option String) (file : RegFile)
    (V : String) (arts : String → Bool)
    (_henv : env = none ∨ env = some "")
    (hres : get_active_model_version env file = Except.ok V)
    (hne : V ≠ "v1") (hmiss : arts V = false) :
    load_active_model env file arts =
      if arts "v1" then Except.ok ("v1", "v1")
      else Except.error (Err.http 404 ("Model " ++ V ++ " not found")) := by
  unfold load_active_model
  rw [hres]
  simp [hmiss, hne]

/-- C3 witness: no override, registry document declaring version `"v2"`,
store holding only the v1 artifact — loading falls back to v1. -/
theorem C3_registry_fallback_witness :
    ((none = (none : Option String) ∨ (none : Option String) = some "") ∧
     get_active_model_version none (RegFile.doc ⟨some "v2", none, none, none⟩)
       = Except.ok "v2" ∧
     ("v2" : String) ≠ "v1" ∧ (fun v => v == "v1") "v2" = false) ∧
    load_active_model none (RegFile.doc ⟨some "v2", none, none, none⟩)
        (fun v => v == "v1") =
      (if (fun v => v == "v1") "v1" then Except.ok ("v1", "v1")
       else Except.error (Err.http 404 ("Model " ++ "v2" ++ " not found"))) :=
  ⟨⟨Or.inl rfl, rfl, by decide, by decide⟩,
   C3_registry_fallback none (RegFile.doc ⟨some "v2", none, none, none⟩) "v2"
     (fun v => v == "v1") (Or.inl rfl) rfl (by decide) (by decide)⟩

/-! ## C4: accuracy carry-over on switch -/

/-- C4 counterexample: the prior registry reflects version `"v1"` with a
recorded accuracy of 0.42; switching to `"v2"` carries that 0.42 into the
new record instead of writing the claimed 0.95 placeholder for the
RandomForest family — the carry-over condition ignores which version the
prior metric belonged to. -/
theorem C4_counterexample :
    (switch_model "v2"
        (RegFile.doc ⟨some "v1", none, none, some ⟨some (42 / 100)⟩⟩)
        (fun _ => true)).1
      = RegFile.doc ⟨some "v2", some "iris_v2.pkl",
          some "RandomForestClassifier", some ⟨some (42 / 100)⟩⟩
  ∧ (42 / 100 : ℚ) ≠ 95 / 100 := by
  refine ⟨rfl, by norm_num⟩

/-- C4 (amended): for every valid target with its artifact present and
every parseable prior registry state, the written record has the target's
version, artifact name and family label, and its accuracy is the previously
recorded metrics whenever the prior registry contains any recorded metrics
— regardless of which version they were recorded for — and otherwise the
documented family default placeholder (0.35 for v1, 0.95 for v2). -/
theorem C4_accuracy_carryover (target : String) (file : RegFile) (p : RegDoc)
    (arts : String → Bool) (hv : target = "v1" ∨ target = "v2")
    (ha : arts target = true) (hp : load_registry file = Except.ok p) :
    (switch_model target file arts).1 = RegFile.doc
      ⟨some target, some ("iris_" ++ target ++ ".pkl"),
       some (if target = "v1" then "DummyClassifier"
             else "RandomForestClassifier"),
       match p.metrics with
       | some m => some m
       | none => some ⟨some (if target = "v1" then 35 / 100 else 95 / 100)⟩⟩ := by
  rw [switch_model_ok target file p arts hv ha hp]
  cases hm : p.metrics <;> simp [hm]

/-- C4 witness: prior registry at version `"v1"` with recorded accuracy 1/2;
switching to `"v2"` writes a RandomForest record carrying the 1/2 metric. -/
theorem C4_accuracy_carryover_witness :
    ((("v2" : String) = "v1" ∨ ("v2" : String) = "v2") ∧
     (fun _ : String => true) "v2" = true ∧
     load_registry (RegFile.doc ⟨some "v1", none, none, some ⟨some (1 / 2)⟩⟩)
       = Except.ok ⟨some "v1", none, none, some ⟨some (1 / 2)⟩⟩) ∧
    (switch_model "v2"
        (RegFile.doc ⟨some "v1", none, none, some ⟨some (1 / 2)⟩⟩)
        (fun _ => true)).1
      = RegFile.doc ⟨some "v2", some "iris_v2.pkl",
          some "RandomForestClassifier", some ⟨some (1 / 2)⟩⟩ :=
  ⟨⟨Or.inr rfl, rfl, rfl⟩,
   C4_accuracy_carryover "v2"
     (RegFile.doc ⟨some "v1", none, none, some ⟨some (1 / 2)⟩⟩)
     ⟨some "v1", none, none, some ⟨some (1 / 2)⟩⟩
     (fun _ => true) (Or.inr rfl) rfl rfl⟩

/-! ## C5: rejection leaves the registry unchanged -/

/-- C5: a target outside `{"v1","v2"}` is rejected with `InvalidVersion`
(HTTP 400), and a target in the set whose artifact is absent is rejected
with `ArtifactNotFound` (HTTP 404); on either rejection the persisted
registry file is returned exactly as it was — no write occurs. -/
theorem C5_rejection_no_write (target : String) (file : RegFile)
    (arts : String → Bool)
    (h : ¬ (target = "v1" ∨ target = "v2") ∨ arts target = false) :
    switch_model target file arts =
      (file, Except.error
        (if target = "v1" ∨ target = "v2"
         then Err.http 404 ("Model " ++ target ++ " not found")
         else Err.http 400 "Invalid model version")) := by
  unfold switch_model
  rcases h with h | h
  · rw [if_pos h, if_neg h]
  · by_cases hv : target = "v1" ∨ target = "v2"
    · rw [if_neg (not_not_intro hv), if_pos (by simp [h]), if_pos hv]
    · rw [if_pos hv, if_neg hv]

/-- C5 witness: rejecting the unknown target `"v3"` over a populated
registry document leaves the document untouched and reports HTTP 400. -/
theorem C5_rejection_no_write_witness :
    (¬ (("v3" : String) = "v1" ∨ ("v3" : String) = "v2") ∨
      (fun v => v == "v1") "v3" = false) ∧
    switch_model "v3" (RegFile.doc ⟨some "v1", none, none, none⟩)
        (fun v => v == "v1") =
      (RegFile.doc ⟨some "v1", none, none, none⟩, Except.error
        (if ("v3" : String) = "v1" ∨ ("v3" : String) = "v2"
         then Err.http 404 ("Model " ++ "v3" ++ " not found")
         else Err.http 400 "Invalid model version")) :=
  ⟨Or.inl (by decide),
   C5_rejection_no_write "v3" (RegFile.doc ⟨some "v1", none, none, none⟩)
     (fun v => v == "v1") (Or.inl (by decide))⟩

/-! ## C6: idempotence of switch -/

/-- C6: for every valid target whose artifact exists and every starting
registry state, running `switch_model` twice with the same target leaves
the same persisted registry file as running it once. -/
theorem C6_switch_idempotent (target : String) (file : RegFile)
    (arts : String → Bool) (hv : target = "v1" ∨ target = "v2")
    (ha : arts target = true) :
    (switch_model target (switch_model target file arts).1 arts).1
      = (switch_model target file arts).1 := by
  cases hfile : load_registry file with
  | error e =>
    have hm : file = RegFile.malformed := by
      cases file with
      | absent => simp [load_registry] at hfile
      | malformed => rfl
      | doc d => simp [load_registry] at hfile
    subst hm
    rw [switch_model_malformed target arts hv ha,
        switch_model_malformed target arts hv ha]
  | ok p =>
    rw [switch_model_ok target file p arts hv ha hfile]
    rw [switch_model_ok target (RegFile.doc _) _ arts hv ha rfl]
    simp

/-- C6 witness: switching to `"v2"` twice from the bootstrap (absent)
registry leaves the same persisted file as switching once. -/
theorem C6_switch_idempotent_witness :
    ((("v2" : String) = "v1" ∨ ("v2" : String) = "v2") ∧
     (fun _ : String => true) "v2" = true) ∧
    (switch_model "v2" (switch_model "v2" RegFile.absent (fun _ => true)).1
        (fun _ => true)).1
      = (switch_model "v2" RegFile.absent (fun _ => true)).1 :=
  ⟨⟨Or.inr rfl, rfl⟩,
   C6_switch_idempotent "v2" RegFile.absent (fun _ => true) (Or.inr rfl) rfl⟩

/-! ## Helper lemma about `predict` -/

/-- When the active model loads as `(m, ver)` and the registry file parses
to `reg`, `GET /predict` returns the fully annotated response. -/
lemma predict_eq (env : Option String) (file : RegFile) (arts : String → Bool)
    (infer : String → Features → ℤ) (x : Features) (m ver : String)
    (reg : RegDoc)
    (hl : load_active_model env file arts = Except.ok (m, ver))
    (hr : load_registry file = Except.ok reg) :
    predict env file arts infer x = Except.ok
      { model := ver
        prediction := speciesGet (infer m x)
        accuracy := regAccuracy reg
        model_type := reg.model_type.getD "unknown"
        version := ver ++ ".0.0" } := by
  unfold predict
  rw [hl, hr]

/-! ## C8: species index mapping -/

/-- C8: a successful `/predict` response carries
`SPECIES.get(pred_idx, pred_idx)` applied to the class index produced by
inference on the loaded model, and that mapping sends 0, 1, 2 to the fixed
species names and passes every other index through verbatim instead of
erroring. -/
theorem C8_species_mapping (env : Option String) (file : RegFile)
    (arts : String → Bool) (infer : String → Features → ℤ) (x : Features)
    (r : PredictResp) (h : predict env file arts infer x = Except.ok r) :
    (∃ m ver, load_active_model env file arts = Except.ok (m, ver)
        ∧ r.prediction = speciesGet (infer m x))
  ∧ ∀ i : ℤ, speciesGet i =
      if i = 0 then PredLabel.species "setosa"
      else if i = 1 then PredLabel.species "versicolor"
      else if i = 2 then PredLabel.species "virginica"
      else PredLabel.idx i := by
  constructor
  · cases hl : load_active_model env file arts with
    | error e =>
      exfalso
      unfold predict at h
      rw [hl] at h
      exact Except.noConfusion h
    | ok mv =>
      obtain ⟨m, ver⟩ := mv
      cases hr : load_registry file with
      | error e =>
        exfalso
        unfold predict at h
        rw [hl, hr] at h
        exact Except.noConfusion h
      | ok reg =>
        refine ⟨m, ver, rfl, ?_⟩
        rw [predict_eq env file arts infer x m ver reg hl hr] at h
        injection h with h
        rw [← h]
  · intro i
    by_cases h0 : i = 0
    · subst h0; rfl
    · by_cases h1 : i = 1
      · subst h1; rfl
      · by_cases h2 : i = 2
        · subst h2; rfl
        · have b0 : (i == 0) = false := beq_eq_false_iff_ne.mpr h0
          have b1 : (i == 1) = false := beq_eq_false_iff_ne.mpr h1
          have b2 : (i == 2) = false := beq_eq_false_iff_ne.mpr h2
          simp [speciesGet, SPECIES, List.lookup, b0, b1, b2, h0, h1, h2]

/-- C8 witness: with an inference stub returning the out-of-range index 5,
`/predict` succeeds and passes the raw index through as the label. -/
theorem C8_species_mapping_witness :
    predict none RegFile.absent (fun v => v == "v1") (fun _ _ => 5)
        ((1 : ℚ), (2 : ℚ), (3 : ℚ), (4 : ℚ)) = Except.ok
        ⟨"v1", PredLabel.idx 5, JVal.str "unknown", "unknown", "v1.0.0"⟩ ∧
    ((∃ m ver, load_active_model none RegFile.absent (fun v => v == "v1")
          = Except.ok (m, ver)
        ∧ (⟨"v1", PredLabel.idx 5, JVal.str "unknown", "unknown",
            "v1.0.0"⟩ : PredictResp).prediction
            = speciesGet ((fun _ _ => 5) m ((1 : ℚ), (2 : ℚ), (3 : ℚ), (4 : ℚ))))
     ∧ ∀ i : ℤ, speciesGet i =
        if i = 0 then PredLabel.species "setosa"
        else if i = 1 then PredLabel.species "versicolor"
        else if i = 2 then PredLabel.species "virginica"
        else PredLabel.idx i) :=
  ⟨rfl, C8_species_mapping none RegFile.absent (fun v => v == "v1")
    (fun _ _ => 5) ((1 : ℚ), (2 : ℚ), (3 : ℚ), (4 : ℚ))
    ⟨"v1", PredLabel.idx 5, JVal.str "unknown", "unknown", "v1.0.0"⟩ rfl⟩

/-! ## C9: accuracy annotation -/

/-- C9: every successful `/predict` response carries the parsed registry's
recorded accuracy as a number, or the literal string `"unknown"` when the
metrics or the accuracy key are absent; and in the scenario with no
registry, no override and only the v1 artifact, `/predict` always succeeds,
resolves to v1 and reports accuracy `"unknown"`. -/
theorem C9_accuracy_annotation (env : Option String) (file : RegFile)
    (arts : String → Bool) (infer : String → Features → ℤ) (x : Features)
    (r : PredictResp) (p : RegDoc)
    (h : predict env file arts infer x = Except.ok r)
    (hp : load_registry file = Except.ok p) :
    (r.accuracy = match p.metrics with
      | none => JVal.str "unknown"
      | some m =>
        match m.accuracy with
        | none => JVal.str "unknown"
        | some q => JVal.num q)
  ∧ (∀ inf2 : String → Features → ℤ, ∀ y : Features,
      ∃ r2 : PredictResp,
        predict none RegFile.absent (fun v => v == "v1") inf2 y
          = Except.ok r2
        ∧ r2.model = "v1" ∧ r2.accuracy = JVal.str "unknown") := by
  constructor
  · cases hl : load_active_model env file arts with
    | error e =>
      exfalso
      unfold predict at h
      rw [hl] at h
      exact Except.noConfusion h
    | ok mv =>
      obtain ⟨m, ver⟩ := mv
      rw [predict_eq env file arts infer x m ver p hl hp] at h
      injection h with h
      rw [← h]
      obtain ⟨pv, pa, pt, pm⟩ := p
      cases pm with
      | none => rfl
      | some mm =>
        obtain ⟨acc⟩ := mm
        cases acc <;> rfl
  · intro inf2 y
    exact ⟨_, predict_eq none RegFile.absent (fun v => v == "v1") inf2 y
      "v1" "v1" RegDoc.empty rfl rfl, rfl, rfl⟩

/-- C9 witness: registry document recording accuracy 9/10, override unset,
v1 artifact present — the response's accuracy is the recorded number. -/
theorem C9_accuracy_annotation_witness :
    (predict none (RegFile.doc ⟨some "v1", none, some "RF", some ⟨some (9 / 10)⟩⟩)
        (fun v => v == "v1") (fun _ _ => 0) ((5 : ℚ), (3 : ℚ), (1 : ℚ), (0 : ℚ))
        = Except.ok ⟨"v1", PredLabel.species "setosa", JVal.num (9 / 10), "RF",
            "v1.0.0"⟩ ∧
     load_registry (RegFile.doc ⟨some "v1", none, some "RF", some ⟨some (9 / 10)⟩⟩)
        = Except.ok ⟨some "v1", none, some "RF", some ⟨some (9 / 10)⟩⟩) ∧
    ((⟨"v1", PredLabel.species "setosa", JVal.num (9 / 10), "RF",
        "v1.0.0"⟩ : PredictResp).accuracy =
      match (⟨some "v1", none, some "RF", some ⟨some (9 / 10)⟩⟩ : RegDoc).metrics with
      | none => JVal.str "unknown"
      | some m =>
        match m.accuracy with
        | none => JVal.str "unknown"
        | some q => JVal.num q)
  ∧ (∀ inf2 : String → Features → ℤ, ∀ y : Features,
      ∃ r2 : PredictResp,
        predict none RegFile.absent (fun v => v == "v1") inf2 y
          = Except.ok r2
        ∧ r2.model = "v1" ∧ r2.accuracy = JVal.str "unknown") :=
  ⟨⟨rfl, rfl⟩, C9_accuracy_annotation none
    (RegFile.doc ⟨some "v1", none, some "RF", some ⟨some (9 / 10)⟩⟩)
    (fun v => v == "v1") (fun _ _ => 0) ((5 : ℚ), (3 : ℚ), (1 : ℚ), (0 : ℚ))
    ⟨"v1", PredLabel.species "setosa", JVal.num (9 / 10), "RF", "v1.0.0"⟩
    ⟨some "v1", none, some "RF", some ⟨some (9 / 10)⟩⟩ rfl rfl⟩

/-! ## C10: hardcoded metadata of the pinned endpoints -/

/-- C10: over any parseable registry state, when the registry's version
field is not `"v1"` the `/predict/v1` endpoint reports accuracy exactly
0.35 and model type `"DummyClassifier"`, and when it is not `"v2"` the
`/predict/v2` endpoint reports accuracy exactly 0.95 and model type
`"RandomForestClassifier"` — regardless of any metric recorded in the
registry. -/
theorem C10_pinned_hardcoded (file : RegFile) (arts : String → Bool)
    (infer : String → Features → ℤ) (x : Features) (p : RegDoc)
    (hp : load_registry file = Except.ok p)
    (ha1 : arts "v1" = true) (ha2 : arts "v2" = true) :
    (versionField file = some "v1" ∨
      ∃ r1 : PinnedV1Resp, predict_v1 file arts infer x = Except.ok r1
        ∧ r1.accuracy = 35 / 100 ∧ r1.model_type = "DummyClassifier")
  ∧ (versionField file = some "v2" ∨
      ∃ r2 : PinnedV2Resp, predict_v2 file arts infer x = Except.ok r2
        ∧ r2.accuracy = 95 / 100
        ∧ r2.model_type = "RandomForestClassifier") := by
  have hvf : versionField file = p.version := by
    cases file with
    | absent =>
      injection hp with h
      rw [← h]
      rfl
    | malformed => exact Except.noConfusion hp
    | doc d =>
      injection hp with h
      rw [← h]
      rfl
  constructor
  · by_cases hv : p.version = some "v1"
    · exact Or.inl (hvf ▸ hv)
    · refine Or.inr ⟨⟨"v1", speciesGet (infer "v1" x), 35 / 100,
        "DummyClassifier", "1.0.0"⟩, ?_, rfl, rfl⟩
      unfold predict_v1
      rw [if_pos ha1, hp]
      simp [hv]
  · by_cases hv : p.version = some "v2"
    · exact Or.inl (hvf ▸ hv)
    · refine Or.inr ⟨⟨"v2", speciesGet (infer "v2" x), 95 / 100,
        "RandomForestClassifier", "2.0.0",
        "Major accuracy boost via CI/CD"⟩, ?_, rfl, rfl⟩
      unfold predict_v2
      rw [if_pos ha2, hp]
      simp [hv]

/-- C10 witness: registry document at version `"v3"` recording accuracy
7/10; both pinned endpoints ignore the recorded metric and report their
hardcoded metadata. -/
theorem C10_pinned_hardcoded_witness :
    (load_registry (RegFile.doc ⟨some "v3", none, none, some ⟨some (7 / 10)⟩⟩)
        = Except.ok ⟨some "v3", none, none, some ⟨some (7 / 10)⟩⟩ ∧
     (fun _ : String => true) "v1" = true ∧
     (fun _ : String => true) "v2" = true) ∧
    ((versionField (RegFile.doc ⟨some "v3", none, none, some ⟨some (7 / 10)⟩⟩)
        = some "v1" ∨
      ∃ r1 : PinnedV1Resp,
        predict_v1 (RegFile.doc ⟨some "v3", none, none, some ⟨some (7 / 10)⟩⟩)
          (fun _ => true) (fun _ _ => 0) ((5 : ℚ), (3 : ℚ), (1 : ℚ), (0 : ℚ))
          = Except.ok r1
        ∧ r1.accuracy = 35 / 100 ∧ r1.model_type = "DummyClassifier")
  ∧ (versionField (RegFile.doc ⟨some "v3", none, none, some ⟨some (7 / 10)⟩⟩)
        = some "v2" ∨
      ∃ r2 : PinnedV2Resp,
        predict_v2 (RegFile.doc ⟨some "v3", none, none, some ⟨some (7 / 10)⟩⟩)
          (fun _ => true) (fun _ _ => 0) ((5 : ℚ), (3 : ℚ), (1 : ℚ), (0 : ℚ))
          = Except.ok r2
        ∧ r2.accuracy = 95 / 100
        ∧ r2.model_type = "RandomForestClassifier")) :=
  ⟨⟨rfl, rfl, rfl⟩,
   C10_pinned_hardcoded (RegFile.doc ⟨some "v3", none, none, some ⟨some (7 / 10)⟩⟩)
     (fun _ => true) (fun _ _ => 0) ((5 : ℚ), (3 : ℚ), (1 : ℚ), (0 : ℚ))
     ⟨some "v3", none, none, some ⟨some (7 / 10)⟩⟩ rfl rfl rfl⟩

end IrisApi
